import Mathlib

/-!
# Verification of `extract_text.py` (bhang_bhsa repository)

A shallow embedding of the OCR wrapper script `src/extract_text.py` in Lean 4.

The script is a thin orchestration layer around the external Tesseract OCR
engine and the local filesystem.  We model the environment (filesystem, PIL
image decoding, OCR engine) as an explicit `Env` record whose function fields
stand for the external collaborators; the Python functions
`ImageTextExtractor.extract_text_from_image`, `find_images_in_directory`,
`batch_extract_text`, `save_results` and `main` become total Lean functions
over this environment.  Python exceptions are modelled with `Except`:
code that may raise returns `Except String α`, and a `try/except` boundary
becomes a `match` on that value.  Side effects of the result sink (console
output, directory creation, file writes) are modelled as an explicit list of
emitted events.

Filesystem model: a set of existing regular-file paths and a set of existing
directory paths, both as plain `/`-separated strings.  `pathlib` operations
(`Path.name`, `Path.suffix`, `Path.glob`, `sorted` on paths) are embedded
following CPython 3.11 semantics: `suffix` is the part of the name from the
last dot, provided that dot is neither the first nor the last character of
the name; `glob` on POSIX is case-sensitive pure `fnmatch` per component,
with no special-casing of hidden files, and yields entries of any kind
(files and directories); `sorted` on `Path` objects compares the tuples of
path components lexicographically.
-/

namespace ExtractText

/-- `str.lower()`: lowercase every character (the strings lowered by the
script are ASCII extensions, where Python and Lean lowercasing agree).
Implemented over the character list so that the kernel can evaluate it. -/
def strLower (s : String) : String := String.mk (s.toList.map Char.toLower)

/-- Split a character list at every occurrence of `sep`; mirrors Python
`str.split(sep)` for a one-character separator (adjacent separators yield
empty components). -/
def splitChars (sep : Char) : List Char → List (List Char)
  | [] => [[]]
  | c :: cs =>
      let r := splitChars sep cs
      if c = sep then [] :: r
      else
        match r with
        | [] => [[c]]
        | h :: t => (c :: h) :: t

/-- The components of a `/`-separated path string, as
`pathlib.PurePath.parts` yields them for a path in normal form
(relative, no duplicate or trailing slashes). -/
def pathParts (p : String) : List String :=
  (splitChars '/' p.toList).map String.mk

/-- `pathlib.PurePath.name` for a `/`-separated path string:
the final path component. -/
def pathName (p : String) : String :=
  match (pathParts p).reverse with
  | [] => p
  | n :: _ => n

/-- Helper for `pathSuffix`: the extension starting at the last dot of the
given character list, provided that dot is not the final character.
Returns `none` when there is no such dot. -/
def extFrom : List Char → Option String
  | [] => none
  | '.' :: cs =>
      match extFrom cs with
      | some s => some s
      | none => if cs = [] then none else some (String.mk ('.' :: cs))
  | _ :: cs => extFrom cs

/-- `pathlib.PurePath.suffix`: the extension of the final component, i.e. the
part of the name from its last dot onward, provided that dot is neither the
first nor the last character of the name; otherwise the empty string. -/
def pathSuffix (p : String) : String :=
  match (pathName p).toList with
  | [] => ""
  | _ :: cs =>
      match extFrom cs with
      | some s => s
      | none => ""

/-- `pathlib.PurePath.stem`: the final component without its suffix. -/
def pathStem (p : String) : String :=
  let n := (pathName p).toList
  String.mk (n.take (n.length - (pathSuffix p).length))

/-- Python `str.strip()` with no argument: remove leading and trailing
whitespace characters. -/
def pyStrip (s : String) : String :=
  String.mk
    (((s.toList.dropWhile Char.isWhitespace).reverse.dropWhile
        Char.isWhitespace).reverse)

/-- Whether string `s` ends with string `t` (used to model the fnmatch
pattern `*t` against a file name). -/
def strEndsWith (s t : String) : Bool :=
  t.toList.isSuffixOf s.toList

/-- A decoded image as delivered by `PIL.Image.open`: a color `mode` label,
pixel dimensions, and an abstract content tag (the pixel data, which we never
inspect but the OCR engine consumes). -/
structure PILImage where
  mode : String
  width : Nat
  height : Nat
  content : Nat
deriving Repr, DecidableEq

/-- `img.convert("RGB")`: same pixels and dimensions, mode normalized. -/
def PILImage.convertRGB (img : PILImage) : PILImage :=
  { img with mode := "RGB" }

/-- The external environment of the script: the filesystem (existing regular
files and existing directories, as path strings), PIL image decoding per path
(`Except.error` models a raised decode/IO exception, carrying `str(e)`), and
the Tesseract engine (`Except.error` models an engine exception). -/
structure Env where
  files : List String
  dirs : List String
  openImage : String → Except String PILImage
  ocr : PILImage → String → Except String String

/-- `Path(p).exists()`: the path denotes an existing file or directory. -/
def Env.pathExists (env : Env) (p : String) : Bool :=
  env.files.contains p || env.dirs.contains p

/-- `Path(p).is_file()`: the path denotes an existing regular file. -/
def Env.isFile (env : Env) (p : String) : Bool :=
  env.files.contains p

/-- `self.supported_formats = {'.jpg', '.jpeg', '.png', '.tiff', '.bmp', '.gif'}`
(a set in Python; order never matters below). -/
def supported_formats : List String :=
  [".jpg", ".jpeg", ".png", ".tiff", ".bmp", ".gif"]

/-- The result dictionary built by `extract_text_from_image`.  The Python dict
starts from keys `file_path`, `file_name`, `success`, `text`, `error`; the
keys `image_size` and `image_mode` are added only on success, modelled here as
`Option` fields that are `none` exactly when the key is absent. -/
structure ExtractionResult where
  file_path : String
  file_name : String
  success : Bool
  text : String
  error : Option String
  image_size : Option (Nat × Nat)
  image_mode : Option String
deriving Repr, DecidableEq

/-- The `try:` block of `extract_text_from_image` (source lines 76-97): path
existence check, extension check, image open, RGB conversion, OCR invocation.
An `Except.error` is a raised exception carrying its `str(e)` message; the
success value carries the stripped text and the (possibly converted) image
whose size and mode are recorded. -/
def extractBody (env : Env) (cfg : String) (p : String) :
    Except String (String × PILImage) :=
  if !env.pathExists p then
    .error ("Image file not found: " ++ p)
  else if !supported_formats.contains (strLower (pathSuffix p)) then
    .error ("Unsupported image format: " ++ pathSuffix p)
  else
    match env.openImage p with
    | .error e => .error e
    | .ok img0 =>
        let img := if img0.mode ≠ "RGB" then img0.convertRGB else img0
        match env.ocr img cfg with
        | .error e => .error e
        | .ok text => .ok (pyStrip text, img)

/-- `ImageTextExtractor.extract_text_from_image` (source lines 57-106): builds
the base result dictionary, runs the body, and converts any exception at the
outer `except` boundary into a failed result whose `error` message embeds the
file name and the original cause.  Total: no exception escapes. -/
def extract_text_from_image (env : Env) (cfg : String) (image_path : String) :
    ExtractionResult :=
  let base : ExtractionResult :=
    { file_path := image_path
      file_name := pathName image_path
      success := false
      text := ""
      error := none
      image_size := none
      image_mode := none }
  match extractBody env cfg image_path with
  | .ok (text, img) =>
      { base with
          success := true
          text := text
          image_size := some (img.width, img.height)
          image_mode := some img.mode }
  | .error e =>
      { base with
          error := some ("Error processing " ++ pathName image_path ++ ": " ++ e) }

/-- `str.upper()` for ASCII extension strings. -/
def strUpper (s : String) : String := String.mk (s.toList.map Char.toUpper)

/-- Python `str <`: lexicographic comparison by Unicode code points. -/
def charListLt : List Char → List Char → Bool
  | [], [] => false
  | [], _ :: _ => true
  | _ :: _, [] => false
  | a :: as, b :: bs =>
      if a < b then true else if b < a then false else charListLt as bs

/-- Python `str <` on `String`s. -/
def strLt (a b : String) : Bool := charListLt a.toList b.toList

/-- Lexicographic comparison of component lists, mirroring Python tuple
comparison of strings (`PurePath.__lt__` compares `_cparts`, the component
tuples, and casefolding is the identity on POSIX). -/
def strListLe : List String → List String → Bool
  | [], _ => true
  | _ :: _, [] => false
  | a :: as, b :: bs =>
      if strLt a b then true else if strLt b a then false else strListLe as bs

/-- Python `<=` on `Path` objects: lexicographic on the component tuples. -/
def pathLe (p q : String) : Bool := strListLe (pathParts p) (pathParts q)

/-- Insert into a sorted list, keeping the order `le`. -/
def orderedInsert (le : String → String → Bool) (a : String) :
    List String → List String
  | [] => [a]
  | b :: bs => if le a b then a :: b :: bs else b :: orderedInsert le a bs

/-- Python `sorted` on a list of `Path`s, w.r.t. the component-tuple order.
Insertion sort; since the comparison is total and the globbed list contains
no duplicates (the twelve patterns are pairwise exclusive), any sorting
algorithm — in particular CPython's timsort — produces this same list. -/
def sortPaths : List String → List String
  | [] => []
  | a :: as => orderedInsert pathLe a (sortPaths as)

/-- Scope of the glob pattern: `p` lies strictly below `directory`, at depth
exactly 1 for the single-component pattern `*X`, at any depth ≥ 1 for the
recursive pattern `**/*X` (pathlib's `**` matches zero or more directories,
so direct children are included). -/
def isUnder (directory : String) (recursive : Bool) (p : String) : Bool :=
  let d := (directory ++ "/").toList
  let rest := p.toList.drop d.length
  d.isPrefixOf p.toList && !rest.isEmpty && (recursive || !rest.contains '/')

/-- The fnmatch pattern `*X` against a final component: POSIX fnmatch is
case-sensitive and does not special-case leading dots, so the pattern
matches exactly the names ending with the literal `X`. -/
def globNameMatches (p suffix : String) : Bool :=
  strEndsWith (pathName p) suffix

/-- `ImageTextExtractor.find_images_in_directory` (source lines 108-127):
for each supported extension, glob `{pattern}{suffix}` and
`{pattern}{suffix.upper()}` under `directory`, then sort the collected
paths.  `Path.glob` yields entries of any kind — files and directories —
so the scan runs over both; the twelve suffix patterns are pairwise
exclusive, hence the concatenation has no duplicates and sorting it is the
same as sorting this single filter pass.  No existence check on
`directory` is performed anywhere in the function: globbing a nonexistent
directory silently yields nothing. -/
def find_images_in_directory (env : Env) (directory : String)
    (recursive : Bool := true) : List String :=
  sortPaths ((env.files ++ env.dirs).filter (fun f =>
    isUnder directory recursive f &&
      supported_formats.any (fun s =>
        globNameMatches f s || globNameMatches f (strUpper s))))

/-- `ImageTextExtractor.batch_extract_text` (source lines 129-163): raise
`FileNotFoundError` for a nonexistent source (modelled as `Except.error`),
process a file source directly, otherwise map the single-image extractor
over the Locator's list (the empty list short-circuits to `[]`, which the
final `.map` branch would also produce). -/
def batch_extract_text (env : Env) (cfg : String) (source_path : String) :
    Except String (List ExtractionResult) :=
  if !env.pathExists source_path then
    .error ("Source path not found: " ++ source_path)
  else if env.isFile source_path then
    .ok [extract_text_from_image env cfg source_path]
  else
    let image_files := find_images_in_directory env source_path true
    if image_files.isEmpty then
      .ok []
    else
      .ok (image_files.map (extract_text_from_image env cfg))

/-- A Python value occurring in a result dictionary.  `image_size` is a
tuple of two integers; everything else is a scalar.  JSON parsing can only
produce lists, never tuples, so both are represented. -/
inductive PyLeaf where
  | pyNone
  | pyBool (b : Bool)
  | pyInt (n : Int)
  | pyStr (s : String)
  | pyTuple (xs : List Int)
  | pyList (xs : List Int)
deriving Repr, DecidableEq

/-- A JSON value occurring in a serialized result dictionary. -/
inductive JLeaf where
  | jNull
  | jBool (b : Bool)
  | jInt (n : Int)
  | jStr (s : String)
  | jArr (xs : List Int)
deriving Repr, DecidableEq

/-- `json.dump` with `ensure_ascii=False` on one value: `None` becomes
`null`, tuples and lists both become JSON arrays, and string content is
written verbatim (non-ASCII characters preserved literally), so the JSON
string carries exactly the Python string's characters. -/
def dumpLeaf : PyLeaf → JLeaf
  | .pyNone => .jNull
  | .pyBool b => .jBool b
  | .pyInt n => .jInt n
  | .pyStr s => .jStr s
  | .pyTuple xs => .jArr xs
  | .pyList xs => .jArr xs

/-- `json.load` on one value: a JSON array always parses to a Python list. -/
def loadLeaf : JLeaf → PyLeaf
  | .jNull => .pyNone
  | .jBool b => .pyBool b
  | .jInt n => .pyInt n
  | .jStr s => .pyStr s
  | .jArr xs => .pyList xs

/-- The result dictionary as an ordered Python dict (`dict.update` rewrites
`success` and `text` in place and appends `image_size` and `image_mode`). -/
def resultToPy (r : ExtractionResult) : List (String × PyLeaf) :=
  [("file_path", .pyStr r.file_path),
   ("file_name", .pyStr r.file_name),
   ("success", .pyBool r.success),
   ("text", .pyStr r.text),
   ("error", match r.error with | none => .pyNone | some e => .pyStr e)]
  ++ (match r.image_size with
      | none => []
      | some (w, h) => [("image_size", .pyTuple [(w : Int), (h : Int)])])
  ++ (match r.image_mode with
      | none => []
      | some m => [("image_mode", .pyStr m)])

/-- One JSON-serialized result dictionary. -/
def dumpResult (r : ExtractionResult) : List (String × JLeaf) :=
  (resultToPy r).map (fun kv => (kv.1, dumpLeaf kv.2))

/-- The side effects of the Result Sink, in order: console prints (one event
per `print` call, carrying its argument), a directory creation, a JSON file
write (carrying the document as its parsed shape), or a text file write. -/
inductive SinkEvent where
  | printLine (s : String)
  | mkdir (dir : String)
  | writeJsonFile (path : String) (doc : List (List (String × JLeaf)))
  | writeTextFile (path : String) (contents : String)
deriving Repr, DecidableEq

/-- `f"{x}"` on a value that may be `None`. -/
def optionStr : Option String → String
  | none => "None"
  | some s => s

/-- `'='*50`. -/
def sepLine : String := String.mk (List.replicate 50 '=')

/-- The console-mode block printed for one result (source lines 177-186). -/
def consoleBlock (r : ExtractionResult) : List SinkEvent :=
  [.printLine ("\n" ++ sepLine),
   .printLine ("File: " ++ r.file_name),
   .printLine sepLine]
  ++ (if r.success then
        [.printLine r.text]
          ++ (if r.text = "" then [.printLine "(No text found)"] else [])
      else
        [.printLine ("ERROR: " ++ optionStr r.error)])

/-- `save_results` (source lines 166-214).  `console`: print a block per
result.  `json`: one file (default `extracted_text_results.json`) holding
the serialized sequence.  `text`: create the destination directory
(`mkdir(exist_ok=True)`), then one `<stem>.txt` file per result whose
`success` flag is set and whose `text` is a nonempty string (Python
truthiness of `result['text']`).  Any other format string matches no
branch and the function falls through, doing nothing. -/
def save_results (results : List ExtractionResult) (output_format : String)
    (output_path : Option String) : List SinkEvent :=
  if output_format = "console" then
    results.flatMap consoleBlock
  else if output_format = "json" then
    let path := output_path.getD "extracted_text_results.json"
    [.writeJsonFile path (results.map dumpResult)]
  else if output_format = "text" then
    let dir := output_path.getD "extracted_text"
    .mkdir dir ::
      (results.filter (fun r => r.success && r.text != "")).map
        (fun r =>
          .writeTextFile (dir ++ "/" ++ (pathStem r.file_name ++ ".txt"))
            r.text)
  else []

/-- The parsed command line (defaults as declared by argparse;
`--single` XOR `--batch`, with `single = none` in batch mode). -/
structure Args where
  single : Option String
  sourceDir : String := "."
  format : String := "console"
  outputFile : Option String := none
  outputDir : Option String := none
  tesseractConfig : String := "--oem 3 --psm 6"
deriving Repr

/-- Truthiness of `args.single` in `if args.single:` — `None` and the empty
string are both falsy, so `--single ""` falls through to the batch branch. -/
def argsSingleTruthy (a : Args) : Bool :=
  match a.single with
  | some p => p != ""
  | none => false

/-- The summary block printed at the end of a run (source lines 287-300). -/
def summaryEvents (results : List ExtractionResult) : List SinkEvent :=
  let successful := (results.filter (fun r => r.success)).length
  let failed := results.length - successful
  [.printLine "\nSummary:",
   .printLine ("Total images processed: " ++ toString results.length),
   .printLine ("Successful extractions: " ++ toString successful),
   .printLine ("Failed extractions: " ++ toString failed)]
  ++ (if failed > 0 then
        .printLine "\nFailed files:" ::
          (results.filter (fun r => !r.success)).map
            (fun r => .printLine ("  - " ++ r.file_name ++ ": " ++ optionStr r.error))
      else [])

/-- The observable outcome of one `main` run: process exit code, the result
list accumulated before the sink, and the emitted sink/summary events. -/
structure MainOutcome where
  exitCode : Nat
  results : List ExtractionResult
  events : List SinkEvent
deriving Repr, DecidableEq

/-- `main` (source lines 217-304) after argument parsing: run the single or
batch branch under the top-level `try`, return early (exit 0) on an empty
result list, otherwise save and print the summary; any exception reaching
the top level — only `batch_extract_text` can raise one — hits the
`except` and exits with code 1. -/
def mainRun (env : Env) (args : Args) : MainOutcome :=
  let cfg := args.tesseractConfig
  let resultsE : Except String (List ExtractionResult) :=
    if argsSingleTruthy args then
      .ok [extract_text_from_image env cfg (args.single.getD "")]
    else
      batch_extract_text env cfg args.sourceDir
  match resultsE with
  | .error _ => { exitCode := 1, results := [], events := [] }
  | .ok results =>
      if results.isEmpty then
        { exitCode := 0, results := [], events := [] }
      else
        let output_path :=
          if args.format = "json" then args.outputFile
          else if args.format = "text" then args.outputDir
          else none
        { exitCode := 0
          results := results
          events := save_results results args.format output_path
            ++ summaryEvents results }

/-- The result of `json.dump` followed by `json.load` on one serialized
result dictionary: every leaf comes back through the JSON representation. -/
def jsonRoundTripResult (r : ExtractionResult) : List (String × PyLeaf) :=
  (dumpResult r).map (fun kv => (kv.1, loadLeaf kv.2))

/-- Collapse of the JSON round trip on one Python leaf: tuples come back as
lists, everything else survives unchanged. -/
def pyNormalize : PyLeaf → PyLeaf
  | .pyTuple xs => .pyList xs
  | v => v

/-- Modelled from the spec (§4.1, "fails with a `PathNotFound` condition if
`root` does not exist"): the Locator as the spec describes it, surfacing a
failure to the caller on a nonexistent root.  Used only to contrast with the
code's `find_images_in_directory`, which performs no such check. -/
def find_images_spec (env : Env) (directory : String) (recursive : Bool) :
    Except String (List String) :=
  if !env.pathExists directory then
    .error ("PathNotFound: " ++ directory)
  else
    .ok (find_images_in_directory env directory recursive)

/-- The proper ancestors of a path string: every `d` such that
`p = d ++ "/" ++ rest` with `rest` nonempty. -/
def strAncestors (p : String) : List String :=
  (List.range p.toList.length).filterMap (fun i =>
    match p.toList.drop i with
    | '/' :: _ :: _ => some (String.mk (p.toList.take i))
    | _ => none)

/-- Well-formedness of the filesystem model: the parent chain of every
recorded entry consists of recorded directories (true of any real
filesystem snapshot). -/
def Env.wf (env : Env) : Bool :=
  (env.files ++ env.dirs).all (fun f =>
    (strAncestors f).all (fun d => env.dirs.contains d))

/-- A concrete environment: directory `d` holding a decodable image
`d/a.png` (the OCR engine reads `HELLO\n` from it) and an undecodable one
`d/b.png` (PIL raises on open). -/
def envA : Env :=
  { files := ["d/a.png", "d/b.png"]
    dirs := ["d"]
    openImage := fun p =>
      if p = "d/a.png" then .ok ⟨"L", 640, 480, 0⟩
      else .error "cannot identify image file"
    ocr := fun img _ => if img.content = 0 then .ok "HELLO\n" else .error "boom" }

/-- A concrete environment: `d/blank.png` decodes, but the OCR engine finds
no text on it (returns only whitespace). -/
def envBlank : Env :=
  { files := ["d/blank.png"]
    dirs := ["d"]
    openImage := fun _ => .ok ⟨"RGB", 100, 50, 0⟩
    ocr := fun _ _ => .ok "\n" }

/-- A concrete environment: directory `d` holding a file `d/a.Jpg` whose
extension is a mixed-case spelling of a supported one. -/
def envMixedCase : Env :=
  { files := ["d/a.Jpg"]
    dirs := ["d"]
    openImage := fun _ => .ok ⟨"RGB", 10, 10, 0⟩
    ocr := fun _ _ => .ok "x" }

/-- The default extractor configuration string. -/
def cfg0 : String := "--oem 3 --psm 6"

/-- A successful result whose `text` is whitespace only: its trimmed text is
empty but Python's truthiness test `result['text']` is `True`. -/
def resWhitespace : ExtractionResult :=
  { file_path := "d/a.png"
    file_name := "a.png"
    success := true
    text := " "
    error := none
    image_size := some (100, 50)
    image_mode := some "RGB" }

/-- A successful result carrying non-ASCII text and an `image_size` tuple. -/
def resUnicode : ExtractionResult :=
  { file_path := "d/ű.png"
    file_name := "ű.png"
    success := true
    text := "héllo — ű"
    error := none
    image_size := some (640, 480)
    image_mode := some "RGB" }

/-- A failed result (no `image_size`/`image_mode` keys). -/
def resFailed : ExtractionResult :=
  { file_path := "d/bad.png"
    file_name := "bad.png"
    success := false
    text := ""
    error := some "Error processing bad.png: cannot identify image file"
    image_size := none
    image_mode := none }

/-- A successful result with truly empty text (blank image). -/
def resEmptyText : ExtractionResult :=
  { file_path := "d/blank.png"
    file_name := "blank.png"
    success := true
    text := ""
    error := none
    image_size := some (100, 50)
    image_mode := some "RGB" }

/-- The command line `--single missing.png` (all other flags defaulted). -/
def argsSingleMissing : Args :=
  { single := some "missing.png" }

/-! ## General lemmas about the embedded operations -/

/-- Whenever the source path exists, `batch_extract_text` returns normally
(no branch after the existence check can raise). -/
theorem batch_isOk_of_exists (env : Env) (cfg src : String)
    (h : env.pathExists src = true) :
    ∃ rs, batch_extract_text env cfg src = .ok rs := by
  unfold batch_extract_text
  rw [h]
  simp only [Bool.not_true, Bool.false_eq_true, if_false]
  split
  · exact ⟨_, rfl⟩
  split
  · exact ⟨_, rfl⟩
  · exact ⟨_, rfl⟩

/-- The `except` boundary of `extract_text_from_image`: any exception raised
inside the body is converted into a failed result whose message embeds the
file name and the cause; nothing propagates. -/
theorem extract_catches (env : Env) (cfg p e : String)
    (h : extractBody env cfg p = .error e) :
    extract_text_from_image env cfg p =
      { file_path := p, file_name := pathName p, success := false, text := ""
        error := some ("Error processing " ++ pathName p ++ ": " ++ e)
        image_size := none, image_mode := none } := by
  unfold extract_text_from_image
  rw [h]

/-- On a nonexistent path the body raises `FileNotFoundError` with the
script's message. -/
theorem extractBody_not_found (env : Env) (cfg p : String)
    (h : env.pathExists p = false) :
    extractBody env cfg p = .error ("Image file not found: " ++ p) := by
  unfold extractBody
  simp [h]

/-- A successful body always hands back an image in mode `RGB`: the image is
converted whenever its original mode differs. -/
theorem extractBody_ok_mode (env : Env) (cfg p t : String) (img : PILImage)
    (h : extractBody env cfg p = .ok (t, img)) : img.mode = "RGB" := by
  unfold extractBody at h
  split at h
  · exact absurd h (by simp)
  split at h
  · exact absurd h (by simp)
  rcases hopen : env.openImage p with e | img0
  · simp [hopen] at h
  by_cases hm : img0.mode = "RGB"
  · rcases hocr : env.ocr img0 cfg with e | text
    · simp [hopen, hm, hocr] at h
    · simp [hopen, hm, hocr] at h
      rw [← h.2]
      exact hm
  · rcases hocr : env.ocr img0.convertRGB cfg with e | text
    · simp [hopen, hm, hocr] at h
    · simp [hopen, hm, hocr] at h
      rw [← h.2]
      rfl

/-- Membership in an ordered insertion. -/
theorem mem_orderedInsert (le : String → String → Bool) (a x : String)
    (l : List String) : x ∈ orderedInsert le a l ↔ x = a ∨ x ∈ l := by
  induction l with
  | nil => simp [orderedInsert]
  | cons b bs ih =>
      unfold orderedInsert
      by_cases h : le a b = true
      · rw [if_pos h]
        simp
      · rw [if_neg h]
        simp only [List.mem_cons, ih]
        tauto

/-- Sorting the Locator's list preserves membership. -/
theorem mem_sortPaths (x : String) (l : List String) :
    x ∈ sortPaths l ↔ x ∈ l := by
  induction l with
  | nil => simp [sortPaths]
  | cons a as ih => simp [sortPaths, mem_orderedInsert, ih]

/-- If `f` lies in the glob scope below `dir`, then `dir` is one of `f`'s
proper ancestors. -/
theorem isUnder_mem_strAncestors (dir : String) (rec : Bool) (f : String)
    (h : isUnder dir rec f = true) : dir ∈ strAncestors f := by
  unfold isUnder at h
  simp only [Bool.and_eq_true, Bool.not_eq_true'] at h
  obtain ⟨⟨hpre, hne⟩, -⟩ := h
  rw [ List.isPrefixOf_iff_prefix] at hpre
  obtain ⟨t, ht⟩ := hpre
  have hdat : (dir ++ "/").toList = dir.toList ++ ['/'] := by
    simp [String.toList, String.data_append]
  rw [hdat] at ht
  have hrest : f.toList.drop (dir ++ "/").toList.length = t := by
    rw [hdat, ← ht, List.drop_left]
  rw [hrest] at hne
  rcases t with _ | ⟨c, cs⟩
  · exact absurd hne (by simp)
  unfold strAncestors
  rw [List.mem_filterMap]
  have hdrop : f.toList.drop dir.toList.length = '/' :: c :: cs := by
    rw [← ht, List.append_assoc, List.singleton_append,
      List.drop_left dir.toList ('/' :: c :: cs)]
  have htake : f.toList.take dir.toList.length = dir.toList := by
    rw [← ht, List.append_assoc, List.singleton_append,
      List.take_left dir.toList ('/' :: c :: cs)]
  refine ⟨dir.toList.length, ?_, ?_⟩
  · rw [List.mem_range, ← ht]
    simp only [List.length_append, List.length_cons]
    omega
  · show (match f.toList.drop dir.toList.length with
      | '/' :: _ :: _ => some (String.mk (f.toList.take dir.toList.length))
      | _ => none) = some dir
    rw [hdrop, htake]
    rfl

/-! ## Claim theorems -/

/-- C1: `extract_text_from_image` always returns an `ExtractionResult` and
never propagates an exception (it is a total function into
`ExtractionResult`, every raise of the body being caught at the `except`
boundary); on a nonexistent path it returns the failed result whose error
message reports the file-not-found cause. -/
theorem c1_extract_never_raises_not_found (env : Env) (cfg p : String)
    (h : env.pathExists p = false) :
    extract_text_from_image env cfg p =
      { file_path := p, file_name := pathName p, success := false, text := ""
        error := some ("Error processing " ++ pathName p ++ ": " ++ ("Image file not found: " ++ p))
        image_size := none, image_mode := none } := by
  have hb := extractBody_not_found env cfg p h
  have := extract_catches env cfg p ("Image file not found: " ++ p) hb
  exact this

/-- C1 witness: the nonexistent path `missing.png` in the concrete
environment `envA` yields the failed file-not-found result. -/
theorem c1_witness :
    envA.pathExists "missing.png" = false ∧
    extract_text_from_image envA cfg0 "missing.png" =
      { file_path := "missing.png", file_name := "missing.png", success := false
        text := ""
        error := some "Error processing missing.png: Image file not found: missing.png"
        image_size := none, image_mode := none } :=
  ⟨by decide, by
    have := c1_extract_never_raises_not_found envA cfg0 "missing.png" (by decide)
    simpa using this⟩

/-- C2 counterexample: a successful extraction from a blank image
(`envBlank`, where the OCR engine returns only whitespace) yields
`success=true`, `text=""`, `error=None` — neither disjunct of the claimed
invariant holds, since `text` is empty while `error` is absent. -/
theorem c2_counterexample :
    (extract_text_from_image envBlank cfg0 "d/blank.png").success = true ∧
    (extract_text_from_image envBlank cfg0 "d/blank.png").text = "" ∧
    (extract_text_from_image envBlank cfg0 "d/blank.png").error = none ∧
    ¬ (((extract_text_from_image envBlank cfg0 "d/blank.png").text ≠ "" ∧
        (extract_text_from_image envBlank cfg0 "d/blank.png").error = none) ∨
       ((extract_text_from_image envBlank cfg0 "d/blank.png").error ≠ none ∧
        (extract_text_from_image envBlank cfg0 "d/blank.png").text = "" ∧
        (extract_text_from_image envBlank cfg0 "d/blank.png").success = false)) := by
  decide

/-- C2 amended: the `error` field is present iff `success` is false; on
failure `text` is always empty; on success `error` is absent but `text` may
be empty (when the OCR engine finds no text). -/
theorem c2_amended_error_iff_failure (env : Env) (cfg p : String) :
    (extract_text_from_image env cfg p).error.isSome
        = !(extract_text_from_image env cfg p).success ∧
    ((extract_text_from_image env cfg p).success = true ∨
      (extract_text_from_image env cfg p).text = "") ∧
    ((extract_text_from_image env cfg p).success = false ∨
      (extract_text_from_image env cfg p).error = none) := by
  unfold extract_text_from_image
  rcases h : extractBody env cfg p with e | v
  · simp
  · rcases v with ⟨t, img⟩
    simp

/-- C10: every successful result records `image_mode = "RGB"`, the
post-conversion mode, regardless of the opened image's original mode. -/
theorem c10_success_mode_rgb (env : Env) (cfg p : String)
    (h : (extract_text_from_image env cfg p).success = true) :
    (extract_text_from_image env cfg p).image_mode = some "RGB" := by
  rcases hb : extractBody env cfg p with e | v
  · rw [extract_catches env cfg p e hb] at h
    simp at h
  · rcases v with ⟨t, img⟩
    have hmode := extractBody_ok_mode env cfg p t img hb
    unfold extract_text_from_image
    rw [hb]
    simpa using hmode

/-- C10 witness: the image `d/a.png` in `envA` opens in mode `L`, and the
successful result records mode `RGB`. -/
theorem c10_witness :
    (extract_text_from_image envA cfg0 "d/a.png").success = true ∧
    (extract_text_from_image envA cfg0 "d/a.png").image_mode = some "RGB" :=
  ⟨by decide, c10_success_mode_rgb envA cfg0 "d/a.png" (by decide)⟩

/-- C3: on an existing directory source, `batch_extract_text` returns `ok` of
exactly the Locator's list mapped through the single-image extractor — one
result per image, in Locator order, each image processed independently of the
others' success (so a failure on one image cannot abort or skip the rest),
and the result count equals the image count. -/
theorem c3_batch_maps_locator (env : Env) (cfg src : String)
    (hdir : env.dirs.contains src = true)
    (hfile : env.files.contains src = false) :
    batch_extract_text env cfg src =
      .ok ((find_images_in_directory env src true).map
        (extract_text_from_image env cfg)) ∧
    ((find_images_in_directory env src true).map
        (extract_text_from_image env cfg)).length
      = (find_images_in_directory env src true).length := by
  have hex : env.pathExists src = true := by
    unfold Env.pathExists
    rw [hdir]
    simp
  constructor
  · unfold batch_extract_text
    rw [hex]
    simp only [Bool.not_true, Bool.false_eq_true, if_false, Env.isFile, hfile]
    cases h : find_images_in_directory env src true <;> simp [h]
  · exact List.length_map _ _

/-- C3 witness: `envA`'s directory `d` holds two images of which one fails to
decode; the batch returns exactly the two per-image results in Locator
order. -/
theorem c3_witness :
    batch_extract_text envA cfg0 "d" =
      .ok ((find_images_in_directory envA "d" true).map
        (extract_text_from_image envA cfg0)) ∧
    (find_images_in_directory envA "d" true).length = 2 ∧
    ((find_images_in_directory envA "d" true).map
        (extract_text_from_image envA cfg0)).countP (fun r => !r.success) = 1 :=
  ⟨(c3_batch_maps_locator envA cfg0 "d" (by decide) (by decide)).1,
   by decide, by decide⟩

/-- C9: `save_results` on any output format outside
{`console`, `json`, `text`} matches none of the branches and silently does
nothing: no print, no directory creation, no file write. -/
theorem c9_unknown_format_noop (results : List ExtractionResult)
    (fmt : String) (out : Option String)
    (h1 : fmt ≠ "console") (h2 : fmt ≠ "json") (h3 : fmt ≠ "text") :
    save_results results fmt out = [] := by
  unfold save_results
  simp [h1, h2, h3]

/-- C9 witness: format `xml` with a nonempty result list emits no event. -/
theorem c9_witness :
    save_results [resWhitespace] "xml" (some "out.xml") = [] :=
  c9_unknown_format_noop [resWhitespace] "xml" (some "out.xml")
    (by decide) (by decide) (by decide)

/-- C6 counterexample: the text sink tests the untrimmed `result['text']`
for truthiness, so a successful result whose text is a single space — whose
trimmed text is empty — still gets a file written (carrying the space),
contradicting the claim that no file is created for empty trimmed text. -/
theorem c6_counterexample :
    resWhitespace.success = true ∧
    pyStrip resWhitespace.text = "" ∧
    save_results [resWhitespace] "text" (some "out")
      = [.mkdir "out", .writeTextFile "out/a.txt" " "] := by
  decide

/-- C6 amended: the text sink creates the destination directory and then
writes exactly one file per result with `success=true` and *untrimmed*
nonempty `text`, named `<stem>.txt` under the destination (results with
`success=false` or `text=""` produce nothing); in particular every
successful result with nonempty trimmed text gets its file. -/
theorem c6_amended_text_sink (results : List ExtractionResult)
    (dest : Option String) :
    save_results results "text" dest =
      SinkEvent.mkdir (dest.getD "extracted_text") ::
        (results.filter (fun r => r.success && r.text != "")).map
          (fun r => SinkEvent.writeTextFile
            (dest.getD "extracted_text" ++ "/" ++ (pathStem r.file_name ++ ".txt"))
            r.text) ∧
    ∀ r ∈ results, r.success = true → pyStrip r.text ≠ "" →
      SinkEvent.writeTextFile
          (dest.getD "extracted_text" ++ "/" ++ (pathStem r.file_name ++ ".txt"))
          r.text
        ∈ save_results results "text" dest := by
  have hmain : save_results results "text" dest =
      SinkEvent.mkdir (dest.getD "extracted_text") ::
        (results.filter (fun r => r.success && r.text != "")).map
          (fun r => SinkEvent.writeTextFile
            (dest.getD "extracted_text" ++ "/" ++ (pathStem r.file_name ++ ".txt"))
            r.text) := rfl
  refine ⟨hmain, ?_⟩
  intro r hr hs ht
  have htext : (r.text != "") = true := by
    rcases hcase : r.text == "" with _ | _
    · simp [bne, hcase]
    · exact absurd (by rw [eq_of_beq hcase] : pyStrip r.text = pyStrip "") ht
  rw [hmain]
  exact List.mem_cons_of_mem _
    (List.mem_map_of_mem _ (List.mem_filter.mpr ⟨hr, by rw [hs, htext]; rfl⟩))

/-- C6 witness: of a successful nonempty result, a failed result, and a
successful empty result, exactly the first produces a write, named by the
image's stem. -/
theorem c6_witness :
    save_results [resUnicode, resFailed, resEmptyText] "text" none =
      [SinkEvent.mkdir "extracted_text",
       SinkEvent.writeTextFile "extracted_text/ű.txt" "héllo — ű"] ∧
    SinkEvent.writeTextFile "extracted_text/ű.txt" "héllo — ű"
      ∈ save_results [resUnicode, resFailed, resEmptyText] "text" none :=
  ⟨by decide,
   (c6_amended_text_sink [resUnicode, resFailed, resEmptyText] none).2
     resUnicode (by decide) (by decide) (by decide)⟩

/-- C7 counterexample: JSON serializes the `image_size` tuple as an array
and parsing yields a Python list, which is not equal to the original tuple
(`(640, 480) != [640, 480]` in Python) — so the round trip is not
field-for-field equal on any successful result. -/
theorem c7_counterexample :
    jsonRoundTripResult resUnicode ≠ resultToPy resUnicode ∧
    (jsonRoundTripResult resUnicode).lookup "image_size"
      = some (.pyList [640, 480]) ∧
    (resultToPy resUnicode).lookup "image_size"
      = some (.pyTuple [640, 480]) := by
  decide

/-- C7 amended: the JSON sink writes the full ordered sequence (all fields,
non-ASCII text preserved literally), and parsing it back yields the
original sequence field for field *up to* the `image_size` tuple coming
back as a list; for results carrying no `image_size` (all failed results)
the round trip is exact. -/
theorem c7_amended_json_roundtrip (rs : List ExtractionResult) (path : String) :
    save_results rs "json" (some path)
      = [SinkEvent.writeJsonFile path (rs.map dumpResult)] ∧
    (rs.map dumpResult).map (fun doc => doc.map (fun kv => (kv.1, loadLeaf kv.2)))
      = rs.map (fun r => (resultToPy r).map (fun kv => (kv.1, pyNormalize kv.2))) ∧
    ∀ r ∈ rs, r.image_size = none → jsonRoundTripResult r = resultToPy r := by
  refine ⟨rfl, ?_, ?_⟩
  · rw [List.map_map]
    refine List.map_congr_left (fun r _ => ?_)
    show (dumpResult r).map (fun kv => (kv.1, loadLeaf kv.2)) = _
    unfold dumpResult
    rw [List.map_map]
    refine List.map_congr_left (fun kv _ => ?_)
    show (kv.1, loadLeaf (dumpLeaf kv.2)) = (kv.1, pyNormalize kv.2)
    rcases kv with ⟨k, v⟩
    cases v <;> rfl
  · intro r _ hsize
    unfold jsonRoundTripResult dumpResult resultToPy
    rw [hsize]
    rcases r.error with _ | e <;> rcases r.image_mode with _ | m <;> rfl

/-- C7 witness: a failed result round-trips exactly; a successful
non-ASCII one is serialized by the sink with its text preserved. -/
theorem c7_witness :
    save_results [resUnicode, resFailed] "json" (some "results.json")
      = [SinkEvent.writeJsonFile "results.json"
          ([resUnicode, resFailed].map dumpResult)] ∧
    jsonRoundTripResult resFailed = resultToPy resFailed :=
  ⟨(c7_amended_json_roundtrip [resUnicode, resFailed] "results.json").1,
   (c7_amended_json_roundtrip [resFailed] "results.json").2.2 resFailed
     (by decide) (by decide)⟩

/-- C8: a run with `--single` on a nonexistent (nonempty) path produces
exactly one result — `success=false` with the file-not-found message — and
exits with code 0; and exit code 1 arises only when the batch branch was
taken and its source path does not exist (the sole top-level raise). -/
theorem c8_single_missing_exit0 (env : Env) (args : Args) (p : String)
    (hsingle : args.single = some p) (hp : p ≠ "")
    (hne : env.pathExists p = false) :
    (mainRun env args).exitCode = 0 ∧
    (mainRun env args).results
      = [extract_text_from_image env args.tesseractConfig p] ∧
    (extract_text_from_image env args.tesseractConfig p).success = false ∧
    (extract_text_from_image env args.tesseractConfig p).error
      = some ("Error processing " ++ pathName p ++ ": "
          ++ ("Image file not found: " ++ p)) ∧
    (∀ (env2 : Env) (args2 : Args), (mainRun env2 args2).exitCode = 1 →
      argsSingleTruthy args2 = false
        ∧ env2.pathExists args2.sourceDir = false) := by
  have htruthy : argsSingleTruthy args = true := by
    unfold argsSingleTruthy
    rw [hsingle]
    simpa using hp
  have hres : extract_text_from_image env args.tesseractConfig p =
      { file_path := p, file_name := pathName p, success := false, text := ""
        error := some ("Error processing " ++ pathName p ++ ": "
          ++ ("Image file not found: " ++ p))
        image_size := none, image_mode := none } :=
    extract_catches env args.tesseractConfig p ("Image file not found: " ++ p)
      (extractBody_not_found env args.tesseractConfig p hne)
  have hget : args.single.getD "" = p := by rw [hsingle]; rfl
  have hmain : mainRun env args =
      { exitCode := 0
        results := [extract_text_from_image env args.tesseractConfig p]
        events := save_results [extract_text_from_image env args.tesseractConfig p]
            args.format
            (if args.format = "json" then args.outputFile
             else if args.format = "text" then args.outputDir else none)
          ++ summaryEvents [extract_text_from_image env args.tesseractConfig p] } := by
    unfold mainRun
    rw [htruthy, hget]
    rfl
  refine ⟨by rw [hmain], by rw [hmain], by rw [hres], by rw [hres], ?_⟩
  intro env2 args2 h1
  unfold mainRun at h1
  rcases ht2 : argsSingleTruthy args2 with _ | _
  · rw [ht2] at h1
    simp only [Bool.false_eq_true, if_false] at h1
    rcases he2 : env2.pathExists args2.sourceDir with _ | _
    · exact ⟨rfl, rfl⟩
    · obtain ⟨rs, hrs⟩ :=
        batch_isOk_of_exists env2 args2.tesseractConfig args2.sourceDir he2
      rw [hrs] at h1
      rcases hemp : rs.isEmpty with _ | _ <;> simp [hemp] at h1
  · rw [ht2] at h1
    simp at h1

/-- C4 counterexample: `find_images_in_directory` contains no existence
check at all — on the nonexistent root `missing` it silently returns the
ordinary empty list instead of surfacing a `PathNotFound` failure, whereas
the spec-modelled Locator `find_images_spec` fails there. -/
theorem c4_counterexample :
    envA.pathExists "missing" = false ∧
    find_images_in_directory envA "missing" true = [] ∧
    find_images_spec envA "missing" true
      = .error ("PathNotFound: " ++ "missing") :=
  ⟨by decide, by decide, rfl⟩

/-- C4 amended: `find_images_in_directory` performs no existence check and
has no failure channel; on a nonexistent root of a well-formed filesystem it
silently returns the empty list (the function itself is side-effect free);
the `PathNotFound` failure for a missing source is raised by
`batch_extract_text` instead. -/
theorem c4_amended_no_check_in_locator (env : Env) (cfg root : String)
    (rec : Bool) (hwf : env.wf = true)
    (h : env.pathExists root = false) :
    find_images_in_directory env root rec = [] ∧
    batch_extract_text env cfg root
      = .error ("Source path not found: " ++ root) := by
  constructor
  · unfold find_images_in_directory
    have hfilter : (env.files ++ env.dirs).filter (fun f =>
        isUnder root rec f &&
          supported_formats.any (fun s =>
            globNameMatches f s || globNameMatches f (strUpper s))) = [] := by
      rw [List.filter_eq_nil_iff]
      intro f hf hpred
      simp only [Bool.and_eq_true] at hpred
      have hanc := isUnder_mem_strAncestors root rec f hpred.1
      unfold Env.wf at hwf
      rw [List.all_eq_true] at hwf
      have hall := hwf f hf
      rw [List.all_eq_true] at hall
      have hmem := hall root hanc
      unfold Env.pathExists at h
      rw [Bool.or_eq_false_iff] at h
      rw [h.2] at hmem
      exact absurd hmem (by simp)
    rw [hfilter]
    rfl
  · unfold batch_extract_text
    rw [h]
    rfl

/-- C4 witness: the nonexistent root `missing` in the well-formed
environment `envA`: the Locator silently yields `[]` and the Orchestrator
raises the path-not-found failure. -/
theorem c4_witness :
    find_images_in_directory envA "missing" false = [] ∧
    batch_extract_text envA cfg0 "missing"
      = .error ("Source path not found: " ++ "missing") :=
  c4_amended_no_check_in_locator envA cfg0 "missing" false
    (by decide) (by decide)

/-- C5 counterexample: the glob patterns cover only the all-lowercase and
all-uppercase spellings of each extension, and POSIX fnmatch is
case-sensitive — the file `d/a.Jpg`, whose extension is case-insensitively
supported, is not found. -/
theorem c5_counterexample :
    envMixedCase.files.contains "d/a.Jpg" = true ∧
    supported_formats.contains (strLower (pathSuffix "d/a.Jpg")) = true ∧
    isUnder "d" true "d/a.Jpg" = true ∧
    find_images_in_directory envMixedCase "d" true = [] := by
  decide

/-- C5 amended: a filesystem entry is returned by the Locator exactly when
it lies in the glob scope below the root and its name ends with the exact
all-lowercase or the exact all-uppercase spelling of a supported extension;
mixed-case extensions are missed, and nothing ending in any other suffix is
ever returned. -/
theorem c5_amended_locator_membership (env : Env) (dir : String)
    (rec : Bool) (f : String) :
    f ∈ find_images_in_directory env dir rec ↔
      ((f ∈ env.files ∨ f ∈ env.dirs) ∧ isUnder dir rec f = true ∧
        ∃ s ∈ supported_formats,
          (strEndsWith (pathName f) s = true ∨
           strEndsWith (pathName f) (strUpper s) = true)) := by
  unfold find_images_in_directory
  rw [mem_sortPaths, List.mem_filter, List.mem_append]
  simp only [Bool.and_eq_true, List.any_eq_true, Bool.or_eq_true,
    globNameMatches]

/-- C8 witness: `--single missing.png` against `envA` exits 0 with the one
failed file-not-found result, while batch mode on the nonexistent default
source also present in the statement is covered by the final conjunct. -/
theorem c8_witness :
    (mainRun envA argsSingleMissing).exitCode = 0 ∧
    (mainRun envA argsSingleMissing).results
      = [extract_text_from_image envA argsSingleMissing.tesseractConfig
          "missing.png"] ∧
    (extract_text_from_image envA argsSingleMissing.tesseractConfig
        "missing.png").success = false :=
  let h := c8_single_missing_exit0 envA argsSingleMissing "missing.png"
    (by decide) (by decide) (by decide)
  ⟨h.1, h.2.1, h.2.2.1⟩

end ExtractText

section Sanity

open ExtractText

example : pathName "a/b/c.jpg" = "c.jpg" := by decide
example : pathSuffix "a/b/c.jpg" = ".jpg" := by decide
example : pathSuffix "a/.bashrc" = "" := by decide
example : pathSuffix "x.tar.gz" = ".gz" := by decide
example : pathSuffix "a." = "" := by decide
example : pathStem "a/b/c.jpg" = "c" := by decide
example : strLower ".JpG" = ".jpg" := by decide
example : strUpper ".jpg" = ".JPG" := by decide
example : pyStrip "  HELLO\n" = "HELLO" := by decide
example : sortPaths ["a/b", "a.c/d"] = ["a/b", "a.c/d"] := by decide
example : isUnder "d" false "d/x/a.jpg" = false := by decide
example : isUnder "d" true "d/x/a.jpg" = true := by decide
example : find_images_in_directory envA "d" true = ["d/a.png", "d/b.png"] := by
  decide
example :
    (extract_text_from_image envA cfg0 "d/a.png").text = "HELLO" := by decide
example :
    (extract_text_from_image envA cfg0 "d/c.txt").error
      = some "Error processing c.txt: Image file not found: d/c.txt" := by
  decide

end Sanity
